import Mathlib

/-!
Shallow embedding of `opsctl.py` (OneKey Ops management tool), covering the
two decision engines of the program:

* the origin monitor (`cmd_origin_run`): per-target probe evaluation,
  consecutive-failure counting on persistent per-target files, and the
  alert-throttling policy;
* the cn-check reachability classifier (`cmd_cn_run`, `request_check`,
  `direct_check_domain`, `proxy_check_domain`, `classify_error`): direct and
  proxied probes, the bounded proxy retry loop, and the final 4-way
  classification.

External effects (network requests, curl invocations, the alert dispatcher,
file I/O) are abstracted as explicit inputs: a probe is a value of a result
type, the dispatcher outcome is a boolean oracle, and the persistent state
files are `Option ℤ` fields of a state record (`none` models an absent or
unreadable file, since `read_int` maps any read failure to its default).
Python floats (elapsed seconds, slow thresholds) are modelled as rationals;
the `%.3f` formatting is modelled at millisecond precision.
-/

namespace Opsctl

/-- Boolean infix test on character lists: `listInfixOf pat l` holds iff
`pat` occurs as a contiguous sublist of `l`.  Used to embed Python's
`sub in s` substring operator. -/
def listInfixOf : List Char → List Char → Bool
  | pat, [] => pat.isEmpty
  | pat, c :: cs => pat.isPrefixOf (c :: cs) || listInfixOf pat cs

/-- Embedding of Python's `sub in s` substring containment. -/
def str_in (sub s : String) : Bool :=
  listInfixOf sub.data s.data

/-- Embedding of Python's `s.startswith(pre)`. -/
def pyStartswith (s pre : String) : Bool :=
  pre.data.isPrefixOf s.data

/-- Embedding of Python's `s.lower()` (the error texts matched by
`classify_error` are ASCII, where `Char.toLower` agrees with Python). -/
def py_lower (s : String) : String :=
  ⟨s.data.map Char.toLower⟩

/-- Embedding of `classify_error` (opsctl.py lines 476-488): lowercase the
error text, then return the first matching category in a fixed order. -/
def classify_error (e : String) : String :=
  let s := py_lower e
  if str_in "timed out" s || str_in "timeout" s then "timeout"
  else if str_in "reset" s then "reset"
  else if str_in "ssl" s || str_in "eof" s then "ssl_error"
  else if str_in "refused" s then "refused"
  else if str_in "proxy" s && str_in "connect" s then "proxy_connect"
  else "other"

/-- Outcome of one `requests.get` call: either an HTTP status code, or the
text of the raised exception.  This abstracts the network call performed by
`request_check`. -/
inductive ReqResult where
  | ok (code : ℤ)
  | err (msg : String)
deriving DecidableEq

/-- Embedding of `request_check` (opsctl.py lines 530-557): 2xx/3xx codes
are healthy, other codes anomalous; exceptions are classified, with a
timeout mapped to the unstable status when `http_timeout_is_unstable` is
set, and to unavailable otherwise. -/
def request_check (res : ReqResult) (http_timeout_is_unstable : Bool) : String :=
  match res with
  | .ok code =>
      if 200 ≤ code ∧ code < 400 then "✅ 正常(" ++ toString code ++ ")"
      else "⚠️ 异常(" ++ toString code ++ ")"
  | .err e =>
      let err := classify_error e
      if http_timeout_is_unstable && (err == "timeout") then "⚠️ 不稳定(timeout)"
      else "❌ 不可用(" ++ err ++ ")"

/-- Embedding of `direct_check_domain` (opsctl.py lines 560-568): the HTTPS
probe runs with `http_timeout_is_unstable` unset, the HTTP probe with it
set.  The two `ReqResult` arguments are the outcomes of the two network
calls. -/
def direct_check_domain (httpsRes httpRes : ReqResult) : String × String :=
  (request_check httpsRes false, request_check httpRes true)

/-- One run's worth of proxy-path oracles, indexed by retry-loop iteration:
`fetch i` tells whether `get_proxy` returns an endpoint on iteration `i`,
and `probeHttps i` / `probeHttp i` are the statuses the two proxied probes
of iteration `i` would produce. -/
structure ProxyEnv where
  fetch : Nat → Bool
  probeHttps : Nat → String
  probeHttp : Nat → String

/-- The retry loop of `proxy_check_domain` (opsctl.py lines 578-597),
iteration index `i`, remaining iterations `fuel`, current status pair `st`.
Returns the final status pair together with the number of loop iterations
(= proxy fetch attempts) executed. -/
def proxy_loop (env : ProxyEnv) : Nat → Nat → String × String → (String × String) × Nat
  | _, 0, st => (st, 0)
  | i, fuel + 1, st =>
      if env.fetch i then
        let ph := env.probeHttps i
        let pt := env.probeHttp i
        if pyStartswith ph "✅" || pyStartswith pt "✅" then ((ph, pt), 1)
        else
          let r := proxy_loop env (i + 1) fuel (ph, pt)
          (r.1, r.2 + 1)
      else
        let r := proxy_loop env (i + 1) fuel st
        (r.1, r.2 + 1)

/-- Embedding of `proxy_check_domain` (opsctl.py lines 571-599): when no
proxy API is configured both statuses are the not-configured marker,
otherwise the retry loop runs starting from the bare unavailable pair. -/
def proxy_check_domain (env : ProxyEnv) (api_configured : Bool) (max_retry : Nat) :
    (String × String) × Nat :=
  if api_configured then proxy_loop env 0 max_retry ("❌ 不可用", "❌ 不可用")
  else (("⚠️ 未配置代理API", "⚠️ 未配置代理API"), 0)

/-- Embedding of the final-classification block of `cmd_cn_run`
(opsctl.py lines 679-703). -/
def final_judgement (proxy_enabled : Bool) (d_https p_https p_http : String) : String :=
  let d_https_ok := pyStartswith d_https "✅"
  let p_https_ok := pyStartswith p_https "✅"
  let p_http_ok := pyStartswith p_http "✅"
  if !proxy_enabled then
    if d_https_ok then "✅ 国内访问正常（未启用代理验证）"
    else "🚫 国内异常（未启用代理验证）"
  else
    if d_https_ok then
      if pyStartswith p_https "❌" then "⚠️ 国内可访问，但存在出口差异"
      else "✅ 国内访问正常"
    else
      if p_https_ok || p_http_ok then "⚠️ 国内异常（HTTPS 受阻）"
      else "🚫 国内无法访问（需海外验证）"

/-- The characters `safe_name` (opsctl.py lines 192-200) keeps unchanged:
alphanumerics plus `.`, `-`, `_`. -/
def safe_char (c : Char) : Bool :=
  c.isAlphanum || c == '.' || c == '-' || c == '_'

/-- Embedding of `safe_name`: every unsafe character is replaced by `_`. -/
def safe_name (name : String) : String :=
  ⟨name.data.map (fun c => if safe_char c then c else '_')⟩

/-- Three decimal digits with leading zeros, for the fractional part of a
`%.3f` rendering. -/
def pad3 (n : Nat) : String :=
  if n < 10 then "00" ++ toString n
  else if n < 100 then "0" ++ toString n
  else toString n

/-- Nearest-millisecond value of a rational number of seconds: the floor of
`q * 1000 + 1/2`, computed on the numerator and denominator so that it
evaluates by kernel reduction.  For `q = n / d` (with `d > 0`) this is
`⌊(2000 n + d) / (2 d)⌋`. -/
def milliRound (q : ℚ) : ℤ :=
  (2000 * q.num + (q.den : ℤ)).fdiv (2 * (q.den : ℤ))

/-- Millisecond-precision rendering of a rational, modelling Python's
`f"{total:.3f}"` on the elapsed-seconds value (rounding to the nearest
millisecond). -/
def fmt3 (q : ℚ) : String :=
  let m : ℤ := milliRound q
  let n := m.natAbs
  (if m < 0 then "-" else "") ++ toString (n / 1000) ++ "." ++ pad3 (n % 1000)

/-- Result of one `run_curl_probe` call (opsctl.py lines 292-337): the
`(http_code, time_total, curl_error)` triple, with the elapsed seconds as a
rational. -/
structure ProbeOutcome where
  code : String
  total : ℚ
  err : String
deriving DecidableEq

/-- Embedding of the failure-reason evaluation of `cmd_origin_run`
(opsctl.py lines 420-425): a mismatched code yields `HTTP {code}` unless it
is the `000` sentinel, in which case the curl error (or `connect_fail` when
empty) is used; on a matching code a slow response yields the formatted
slow message; otherwise no failure. -/
def fail_reason (expect_code : String) (slow_time : ℚ) (p : ProbeOutcome) : Option String :=
  if p.code ≠ expect_code then
    some (if p.code ≠ "000" then "HTTP " ++ p.code
          else if p.err = "" then "connect_fail" else p.err)
  else if p.total > slow_time then
    some ("响应慢 " ++ fmt3 p.total ++ "s")
  else none

/-- Persistent per-target state of the origin monitor: the contents of the
`{safe}.fail` and `{safe}.last_alert` files.  `none` models an absent (or
unreadable) file; `read_int` turns either into its default. -/
structure OriginState where
  failCount : Option ℤ
  lastAlert : Option ℤ
deriving DecidableEq

/-- Embedding of `read_int` (opsctl.py lines 203-209): the stored integer,
or the default when the file is absent or unreadable. -/
def read_int (v : Option ℤ) (d : ℤ) : ℤ :=
  v.getD d

/-- Observable outcome of one probe cycle of `cmd_origin_run` for one
target: the new persisted state, whether an alert was attempted, whether it
was delivered, and whether the ALERT log line was appended (the code
appends it on every attempt, delivered or not). -/
structure CycleOut where
  state : OriginState
  attempted : Bool
  delivered : Bool
  alertLineLogged : Bool
deriving DecidableEq

/-- Embedding of the per-target body of `cmd_origin_run` (opsctl.py lines
418-469).  `deliver_ok` is the oracle for what `send_alert_origin` would
report for this cycle's message.  On a non-failing probe both state files
are removed; on a failing probe the counter is incremented and written, the
alert decision is evaluated (every failure while the count is at most 10,
then throttled by `alert_interval`), and the last-alert timestamp is
written only when the dispatcher reports success. -/
def origin_cycle (expect_code : String) (slow_time : ℚ) (alert_interval now_ts : ℤ)
    (deliver_ok : Bool) (p : ProbeOutcome) (st : OriginState) : CycleOut :=
  match fail_reason expect_code slow_time p with
  | none => ⟨⟨none, none⟩, false, false, false⟩
  | some _ =>
      let count := read_int st.failCount 0 + 1
      let last_ts := read_int st.lastAlert 0
      let send : Bool :=
        if count ≤ 10 then true
        else if count > 10 ∧ now_ts - last_ts ≥ alert_interval then true
        else false
      ⟨⟨some count, if send && deliver_ok then some now_ts else st.lastAlert⟩,
       send, send && deliver_ok, send⟩

/-- A persisted failure-count field is well-formed when it is absent or
holds a count of at least 1 (every value the monitor itself writes). -/
def GoodState (st : OriginState) : Prop :=
  st.failCount = none ∨ ∃ c, st.failCount = some c ∧ 1 ≤ c

/-- C5: a probe outcome is evaluated against the expected HTTP code first:
a mismatched code yields the failure reason `HTTP {code}` — even when the
response was fast — except for the sentinel code `000`, which yields the
transport error detail, or `connect_fail` when that detail is empty; only
when the code matches is slowness checked, yielding the formatted
slow-response reason (elapsed time at millisecond precision) exactly when
the elapsed time exceeds the slow threshold, and no failure otherwise. -/
theorem C5_fail_reason_rule (expect_code : String) (slow_time : ℚ) (p : ProbeOutcome) :
    (p.code ≠ expect_code → p.code ≠ "000" →
      fail_reason expect_code slow_time p = some ("HTTP " ++ p.code))
  ∧ (p.code ≠ expect_code → p.code = "000" → p.err ≠ "" →
      fail_reason expect_code slow_time p = some p.err)
  ∧ (p.code ≠ expect_code → p.code = "000" → p.err = "" →
      fail_reason expect_code slow_time p = some "connect_fail")
  ∧ (p.code = expect_code → slow_time < p.total →
      fail_reason expect_code slow_time p = some ("响应慢 " ++ fmt3 p.total ++ "s"))
  ∧ (p.code = expect_code → p.total ≤ slow_time →
      fail_reason expect_code slow_time p = none)
  ∧ (p.code ≠ expect_code → fail_reason expect_code slow_time p ≠ none) := by
  unfold fail_reason
  refine ⟨?_, ?_, ?_, ?_, ?_, ?_⟩ <;> intros <;> split_ifs <;> simp_all
  all_goals linarith

/-- Witness for C5 at concrete inputs: a wrong code on a fast probe and a
slow probe with a matching code. -/
theorem C5_fail_reason_rule_witness :
    fail_reason "200" 5 ⟨"500", mkRat 1 10, ""⟩ = some "HTTP 500" ∧
    fail_reason "200" 2 ⟨"200", mkRat 32 10, ""⟩ =
      some ("响应慢 " ++ fmt3 (mkRat 32 10) ++ "s") :=
  ⟨(C5_fail_reason_rule "200" 5 ⟨"500", mkRat 1 10, ""⟩).1 (by decide) (by decide),
   (C5_fail_reason_rule "200" 2 ⟨"200", mkRat 32 10, ""⟩).2.2.2.1 rfl (by decide)⟩

/-- C2: the alert decision is evaluated only on failing probes (a
non-failing probe never attempts an alert), and on a failing probe, with
`n` the post-increment failure count, an alert is attempted iff `n ≤ 10`,
or `n > 10` and the current epoch time minus the persisted last-alert epoch
is at least the alert interval. -/
theorem C2_alert_policy (expect_code : String) (slow_time : ℚ) (alert_interval now_ts : ℤ)
    (deliver_ok : Bool) (p : ProbeOutcome) (st : OriginState) :
    (fail_reason expect_code slow_time p = none →
      (origin_cycle expect_code slow_time alert_interval now_ts deliver_ok p st).attempted
        = false)
  ∧ (fail_reason expect_code slow_time p ≠ none →
      ((origin_cycle expect_code slow_time alert_interval now_ts deliver_ok p st).attempted
          = true ↔
        (read_int st.failCount 0 + 1 ≤ 10 ∨
          (10 < read_int st.failCount 0 + 1 ∧
            now_ts - read_int st.lastAlert 0 ≥ alert_interval)))) := by
  unfold origin_cycle
  cases h : fail_reason expect_code slow_time p <;> simp [h]

/-- Witness for C2: on a failing first cycle (n = 1 ≤ 10) the alert is
attempted. -/
theorem C2_alert_policy_witness :
    fail_reason "200" 5 ⟨"500", mkRat 1 10, ""⟩ ≠ none ∧
    (origin_cycle "200" 5 3600 1000 true ⟨"500", mkRat 1 10, ""⟩ ⟨none, none⟩).attempted
      = true :=
  ⟨by decide,
   ((C2_alert_policy "200" 5 3600 1000 true ⟨"500", mkRat 1 10, ""⟩ ⟨none, none⟩).2
      (by decide)).mpr (Or.inl (by decide))⟩

/-- C3: on a failing probe, the persisted last-alert timestamp becomes the
current time exactly when the dispatcher reported successful delivery, and
is left unchanged otherwise; an attempted alert whose delivery fails is
still logged (the ALERT line is appended) but does not advance the
timestamp, so a later failing cycle with a post-increment count above 10 at
any time `now2 ≥ now_ts` attempts the alert again. -/
theorem C3_last_alert_update (expect_code : String) (slow_time : ℚ)
    (alert_interval now_ts : ℤ) (deliver_ok : Bool) (p : ProbeOutcome) (st : OriginState) :
    (fail_reason expect_code slow_time p ≠ none →
      (origin_cycle expect_code slow_time alert_interval now_ts deliver_ok p st).state.lastAlert
        = if (origin_cycle expect_code slow_time alert_interval now_ts deliver_ok p st).delivered
          then some now_ts else st.lastAlert)
  ∧ (fail_reason expect_code slow_time p ≠ none →
      (origin_cycle expect_code slow_time alert_interval now_ts false p st).attempted = true →
      (origin_cycle expect_code slow_time alert_interval now_ts false p st).state.lastAlert
          = st.lastAlert
        ∧ (origin_cycle expect_code slow_time alert_interval now_ts false p st).alertLineLogged
          = true)
  ∧ (∀ (now2 : ℤ) (ok2 : Bool) (p2 : ProbeOutcome),
      fail_reason expect_code slow_time p ≠ none →
      (origin_cycle expect_code slow_time alert_interval now_ts false p st).attempted = true →
      10 < read_int st.failCount 0 + 1 →
      now_ts ≤ now2 →
      fail_reason expect_code slow_time p2 ≠ none →
      (origin_cycle expect_code slow_time alert_interval now2 ok2 p2
          (origin_cycle expect_code slow_time alert_interval now_ts false p st).state).attempted
        = true) := by
  cases h : fail_reason expect_code slow_time p with
  | none => simp [h]
  | some r =>
      refine ⟨fun _ => ?_, fun _ hatt => ?_, fun now2 ok2 p2 _ hatt hcount hle hf2 => ?_⟩
      · simp [origin_cycle, h]
      · simp [origin_cycle, h] at hatt ⊢
        simpa using hatt
      · cases h2 : fail_reason expect_code slow_time p2 with
        | none => exact absurd h2 hf2
        | some r2 =>
            simp [origin_cycle, h, h2, read_int] at hatt ⊢
            simp only [read_int] at hcount
            omega

/-- Witness for C3: a delivery failure at count 12 leaves the last-alert
timestamp at 0, and the next failing cycle attempts the alert again. -/
theorem C3_last_alert_update_witness :
    (origin_cycle "200" 5 3600 5000 false ⟨"500", mkRat 1 10, ""⟩
        ⟨some 11, some 0⟩).attempted = true ∧
    (origin_cycle "200" 5 3600 6000 true ⟨"500", mkRat 1 10, ""⟩
        (origin_cycle "200" 5 3600 5000 false ⟨"500", mkRat 1 10, ""⟩
          ⟨some 11, some 0⟩).state).attempted = true :=
  ⟨by decide,
   (C3_last_alert_update "200" 5 3600 5000 false ⟨"500", mkRat 1 10, ""⟩
      ⟨some 11, some 0⟩).2.2 6000 true ⟨"500", mkRat 1 10, ""⟩
     (by decide) (by decide) (by decide) (by decide) (by decide)⟩

/-- C4: each failing probe cycle increments the persisted consecutive
failure counter by exactly 1 (absent counting as 0); a single non-failing
probe unconditionally clears both persisted fields regardless of the prior
count; and when the prior state is well-formed, the post-cycle state keeps
the invariant that the effective counter is 0 exactly when no failure
counter is persisted. -/
theorem C4_streak_reset_invariant (expect_code : String) (slow_time : ℚ)
    (alert_interval now_ts : ℤ) (deliver_ok : Bool) (p : ProbeOutcome) (st : OriginState)
    (hg : GoodState st) :
    (fail_reason expect_code slow_time p ≠ none →
      (origin_cycle expect_code slow_time alert_interval now_ts
          deliver_ok p st).state.failCount = some (read_int st.failCount 0 + 1))
  ∧ (fail_reason expect_code slow_time p = none →
      (origin_cycle expect_code slow_time alert_interval now_ts
          deliver_ok p st).state = ⟨none, none⟩)
  ∧ GoodState (origin_cycle expect_code slow_time alert_interval now_ts
      deliver_ok p st).state
  ∧ (read_int (origin_cycle expect_code slow_time alert_interval now_ts
        deliver_ok p st).state.failCount 0 = 0 ↔
      (origin_cycle expect_code slow_time alert_interval now_ts
        deliver_ok p st).state.failCount = none) := by
  have hc : 0 ≤ read_int st.failCount 0 := by
    rcases hg with h0 | ⟨c, hcv, h1⟩
    · simp [read_int, h0]
    · simp [read_int, hcv]; omega
  cases h : fail_reason expect_code slow_time p with
  | none => simp [origin_cycle, h, GoodState, read_int]
  | some r =>
      refine ⟨fun _ => by simp [origin_cycle, h], fun h0 => by simp [h] at h0, ?_, ?_⟩
      · simp only [origin_cycle, h, GoodState]
        exact Or.inr ⟨read_int st.failCount 0 + 1, rfl, by simp only [read_int] at hc ⊢; omega⟩
      · simp [origin_cycle, h, read_int]
        simp only [read_int] at hc
        omega

/-- Witness for C4 at a well-formed prior state: the first failure sets the
counter to 1, and a succeeding probe clears the state. -/
theorem C4_streak_reset_invariant_witness :
    GoodState ⟨none, none⟩ ∧
    (origin_cycle "200" 5 3600 1000 true ⟨"500", mkRat 1 10, ""⟩
        ⟨none, none⟩).state.failCount = some 1 ∧
    (origin_cycle "200" 5 3600 1000 true ⟨"200", mkRat 1 10, ""⟩
        ⟨some 7, some 0⟩).state = ⟨none, none⟩ :=
  ⟨Or.inl rfl,
   (C4_streak_reset_invariant "200" 5 3600 1000 true ⟨"500", mkRat 1 10, ""⟩
      ⟨none, none⟩ (Or.inl rfl)).1 (by decide),
   (C4_streak_reset_invariant "200" 5 3600 1000 true ⟨"200", mkRat 1 10, ""⟩
      ⟨some 7, some 0⟩ (Or.inr ⟨7, rfl, by omega⟩)).2.1 (by decide)⟩

/-- C10: the transport-error classifier matches the lowercased error text
against a fixed precedence order — timeout strings first, then reset, then
ssl-or-eof, then refused, then proxy-and-connect, and `other` when nothing
matches.  An error mentioning both a timeout and a refusal is classified
`timeout`, and an `eof` error (no timeout/reset text) is `ssl_error`. -/
theorem C10_classify_error_precedence (e : String) :
    ((str_in "timed out" (py_lower e) || str_in "timeout" (py_lower e)) = true →
      classify_error e = "timeout")
  ∧ ((str_in "timed out" (py_lower e) || str_in "timeout" (py_lower e)) = false →
      str_in "reset" (py_lower e) = true →
      classify_error e = "reset")
  ∧ ((str_in "timed out" (py_lower e) || str_in "timeout" (py_lower e)) = false →
      str_in "reset" (py_lower e) = false →
      (str_in "ssl" (py_lower e) || str_in "eof" (py_lower e)) = true →
      classify_error e = "ssl_error")
  ∧ ((str_in "timed out" (py_lower e) || str_in "timeout" (py_lower e)) = false →
      str_in "reset" (py_lower e) = false →
      (str_in "ssl" (py_lower e) || str_in "eof" (py_lower e)) = false →
      str_in "refused" (py_lower e) = true →
      classify_error e = "refused")
  ∧ ((str_in "timed out" (py_lower e) || str_in "timeout" (py_lower e)) = false →
      str_in "reset" (py_lower e) = false →
      (str_in "ssl" (py_lower e) || str_in "eof" (py_lower e)) = false →
      str_in "refused" (py_lower e) = false →
      (str_in "proxy" (py_lower e) && str_in "connect" (py_lower e)) = true →
      classify_error e = "proxy_connect")
  ∧ ((str_in "timed out" (py_lower e) || str_in "timeout" (py_lower e)) = false →
      str_in "reset" (py_lower e) = false →
      (str_in "ssl" (py_lower e) || str_in "eof" (py_lower e)) = false →
      str_in "refused" (py_lower e) = false →
      (str_in "proxy" (py_lower e) && str_in "connect" (py_lower e)) = false →
      classify_error e = "other") := by
  unfold classify_error
  refine ⟨?_, ?_, ?_, ?_, ?_, ?_⟩ <;> intros <;> simp_all

/-- Witness for C10: a message with both timeout and refusal text maps to
`timeout`, and a bare EOF message maps to `ssl_error`. -/
theorem C10_classify_error_precedence_witness :
    classify_error "Connection timed out, connection refused" = "timeout" ∧
    classify_error "Unexpected EOF on transport" = "ssl_error" :=
  ⟨(C10_classify_error_precedence "Connection timed out, connection refused").1 (by decide),
   (C10_classify_error_precedence "Unexpected EOF on transport").2.2.1
     (by decide) (by decide) (by decide)⟩

/-- C7: on the direct probes, only the HTTP check (run with the
unstable-timeout flag) special-cases a classified timeout into the
`Unstable` status; a timeout on the direct-HTTPS check yields
`Unavailable(timeout)`, and every other transport error on either direct
probe yields `Unavailable` carrying the classified reason. -/
theorem C7_direct_timeout_asymmetry (e1 e2 : String) :
    (classify_error e2 = "timeout" →
      (direct_check_domain (.err e1) (.err e2)).2 = "⚠️ 不稳定(timeout)")
  ∧ (classify_error e2 = "timeout" →
      pyStartswith (direct_check_domain (.err e1) (.err e2)).2 "❌" = false)
  ∧ (classify_error e1 = "timeout" →
      (direct_check_domain (.err e1) (.err e2)).1 = "❌ 不可用(timeout)")
  ∧ (direct_check_domain (.err e1) (.err e2)).1
      = "❌ 不可用(" ++ classify_error e1 ++ ")"
  ∧ (classify_error e2 ≠ "timeout" →
      (direct_check_domain (.err e1) (.err e2)).2
        = "❌ 不可用(" ++ classify_error e2 ++ ")") := by
  unfold direct_check_domain request_check
  refine ⟨fun h => ?_, fun h => ?_, fun h => ?_, ?_, fun h => ?_⟩ <;> simp_all
  decide

/-- Witness for C7: a timed-out HTTP probe is unstable while the same
error on the HTTPS probe is unavailable. -/
theorem C7_direct_timeout_asymmetry_witness :
    (direct_check_domain (.err "timed out") (.err "timed out")).2 = "⚠️ 不稳定(timeout)" ∧
    (direct_check_domain (.err "timed out") (.err "timed out")).1 = "❌ 不可用(timeout)" :=
  ⟨(C7_direct_timeout_asymmetry "timed out" "timed out").1 (by decide),
   (C7_direct_timeout_asymmetry "timed out" "timed out").2.2.1 (by decide)⟩

/-- C1: with a proxy source configured, the final classification follows
the 4-way table: direct-HTTPS healthy and proxy-HTTPS not unavailable is
reachable; direct-HTTPS healthy and proxy-HTTPS unavailable is the
exit-path-discrepancy classification; direct-HTTPS unhealthy with either
proxy probe healthy is the HTTPS-blocked classification; direct-HTTPS
unhealthy with neither proxy probe healthy is unreachable.  The
discrepancy branch tests "not unavailable", so a merely anomalous
proxy-HTTPS still classifies as reachable.  Without a proxy source both
proxy statuses are the not-configured marker and the classification is the
unverified reachable/unreachable pair by direct-HTTPS health alone. -/
theorem C1_final_classification (d p_https p_http : String) :
    (pyStartswith d "✅" = true → pyStartswith p_https "❌" = false →
      final_judgement true d p_https p_http = "✅ 国内访问正常")
  ∧ (pyStartswith d "✅" = true → pyStartswith p_https "❌" = true →
      final_judgement true d p_https p_http = "⚠️ 国内可访问，但存在出口差异")
  ∧ (pyStartswith d "✅" = false →
      (pyStartswith p_https "✅" || pyStartswith p_http "✅") = true →
      final_judgement true d p_https p_http = "⚠️ 国内异常（HTTPS 受阻）")
  ∧ (pyStartswith d "✅" = false →
      pyStartswith p_https "✅" = false → pyStartswith p_http "✅" = false →
      final_judgement true d p_https p_http = "🚫 国内无法访问（需海外验证）")
  ∧ (∀ (env : ProxyEnv) (max_retry : Nat),
      proxy_check_domain env false max_retry
        = (("⚠️ 未配置代理API", "⚠️ 未配置代理API"), 0))
  ∧ (final_judgement false d p_https p_http
      = if pyStartswith d "✅" = true then "✅ 国内访问正常（未启用代理验证）"
        else "🚫 国内异常（未启用代理验证）") := by
  unfold final_judgement proxy_check_domain
  refine ⟨?_, ?_, ?_, ?_, fun env m => rfl, ?_⟩ <;> intros <;> simp_all

/-- Witness for C1: a healthy direct-HTTPS with a merely anomalous (not
unavailable) proxy-HTTPS classifies as reachable. -/
theorem C1_final_classification_witness :
    final_judgement true "✅ 正常(200)" "⚠️ 异常(500)" "❌ 不可用(reset)"
      = "✅ 国内访问正常" :=
  (C1_final_classification "✅ 正常(200)" "⚠️ 异常(500)" "❌ 不可用(reset)").1
    (by decide) (by decide)

/-- The retry loop never executes more iterations than its fuel. -/
theorem proxy_loop_count_le (env : ProxyEnv) :
    ∀ (fuel i : Nat) (st : String × String), (proxy_loop env i fuel st).2 ≤ fuel := by
  intro fuel
  induction fuel with
  | zero => intro i st; simp [proxy_loop]
  | succ f ih =>
      intro i st
      simp only [proxy_loop]
      split_ifs <;> simp <;> exact ih _ _

/-- The retry loop stops at the first iteration whose fetch succeeded and
whose probes contain a healthy result: earlier iterations either had no
proxy (and still consumed a slot) or probed unhealthily. -/
theorem proxy_loop_stop (env : ProxyEnv) :
    ∀ (j i fuel : Nat) (st : String × String), j < fuel →
    env.fetch (i + j) = true →
    (pyStartswith (env.probeHttps (i + j)) "✅"
      || pyStartswith (env.probeHttp (i + j)) "✅") = true →
    (∀ k, k < j → env.fetch (i + k) = true →
      (pyStartswith (env.probeHttps (i + k)) "✅"
        || pyStartswith (env.probeHttp (i + k)) "✅") = false) →
    proxy_loop env i fuel st = ((env.probeHttps (i + j), env.probeHttp (i + j)), j + 1) := by
  intro j
  induction j with
  | zero =>
      intro i fuel st hlt hf hh _
      match fuel, hlt with
      | f + 1, _ =>
          simp only [Nat.add_zero] at hf hh
          simp [proxy_loop, hf, hh]
  | succ j ih =>
      intro i fuel st hlt hf hh hmin
      match fuel, hlt with
      | f + 1, hlt =>
          have hjf : j < f := by omega
          have hshift : i + 1 + j = i + (j + 1) := by omega
          by_cases hfi : env.fetch i
          · have hni : (pyStartswith (env.probeHttps i) "✅"
                || pyStartswith (env.probeHttp i) "✅") = false := by
              have := hmin 0 (by omega) (by simpa using hfi)
              simpa using this
            have hrec := ih (i + 1) f (env.probeHttps i, env.probeHttp i)
              hjf (by rw [hshift]; exact hf) (by rw [hshift]; exact hh)
              (fun k hk hfk => by
                have := hmin (k + 1) (by omega) (by
                  have h2 : i + (k + 1) = i + 1 + k := by omega
                  rw [h2]; exact hfk)
                have h2 : i + (k + 1) = i + 1 + k := by omega
                rw [h2] at this; exact this)
            simp only [proxy_loop, hfi, if_true, hni, Bool.false_eq_true, if_false, hrec]
            rw [hshift]
          · have hrec := ih (i + 1) f st
              hjf (by rw [hshift]; exact hf) (by rw [hshift]; exact hh)
              (fun k hk hfk => by
                have h2 : i + (k + 1) = i + 1 + k := by omega
                have := hmin (k + 1) (by omega) (by rw [h2]; exact hfk)
                rw [h2] at this; exact this)
            simp only [proxy_loop, hfi, Bool.false_eq_true, if_false, hrec]
            rw [hshift]

/-- If every fetch in the window fails, the loop runs all its iterations
without changing the statuses. -/
theorem proxy_loop_all_skip (env : ProxyEnv) :
    ∀ (fuel i : Nat) (st : String × String),
    (∀ k, k < fuel → env.fetch (i + k) = false) →
    proxy_loop env i fuel st = (st, fuel) := by
  intro fuel
  induction fuel with
  | zero => intro i st _; simp [proxy_loop]
  | succ f ih =>
      intro i st hall
      have h0 : env.fetch i = false := by simpa using hall 0 (by omega)
      have hrec := ih (i + 1) st (fun k hk => by
        have h2 : i + (k + 1) = i + 1 + k := by omega
        have := hall (k + 1) (by omega)
        rw [h2] at this; exact this)
      simp [proxy_loop, h0, hrec]

/-- The loop result depends only on the fetch pattern and on the probe
outcomes of iterations whose fetch succeeded: probes are never issued on a
skipped iteration. -/
theorem proxy_loop_congr (env env2 : ProxyEnv)
    (hfe : ∀ k, env.fetch k = env2.fetch k)
    (hpr : ∀ k, env.fetch k = true →
      env.probeHttps k = env2.probeHttps k ∧ env.probeHttp k = env2.probeHttp k) :
    ∀ (fuel i : Nat) (st : String × String),
    proxy_loop env i fuel st = proxy_loop env2 i fuel st := by
  intro fuel
  induction fuel with
  | zero => intro i st; simp [proxy_loop]
  | succ f ih =>
      intro i st
      by_cases hfi : env.fetch i
      · obtain ⟨h1, h2⟩ := hpr i hfi
        simp only [proxy_loop, hfi, hfe i ▸ hfi, if_true, h1, h2, ih]
      · have hfi2 : env2.fetch i = false := by rw [← hfe i]; simpa using hfi
        simp only [proxy_loop, hfi, hfi2, Bool.false_eq_true, if_false, ih]

/-- C6: with a proxy source configured, the proxy check executes at most
`max_retry` loop iterations (each with one fresh fetch); it stops at the
first iteration whose fetch yielded a proxy and whose probes contain a
healthy result — earlier fetch-less iterations still consume retry slots,
as the returned attempt count `j + 1` includes them; and the outcome never
depends on probe values of iterations whose fetch yielded nothing, since
no probe is issued there. -/
theorem C6_proxy_retry_loop (env : ProxyEnv) (max_retry : Nat) :
    (proxy_check_domain env true max_retry).2 ≤ max_retry
  ∧ (∀ j, j < max_retry → env.fetch j = true →
      (pyStartswith (env.probeHttps j) "✅"
        || pyStartswith (env.probeHttp j) "✅") = true →
      (∀ k, k < j → env.fetch k = true →
        (pyStartswith (env.probeHttps k) "✅"
          || pyStartswith (env.probeHttp k) "✅") = false) →
      proxy_check_domain env true max_retry
        = ((env.probeHttps j, env.probeHttp j), j + 1))
  ∧ (∀ env2 : ProxyEnv, (∀ k, env.fetch k = env2.fetch k) →
      (∀ k, env.fetch k = true →
        env.probeHttps k = env2.probeHttps k ∧ env.probeHttp k = env2.probeHttp k) →
      proxy_check_domain env true max_retry = proxy_check_domain env2 true max_retry) := by
  refine ⟨?_, ?_, ?_⟩
  · simpa [proxy_check_domain] using proxy_loop_count_le env max_retry 0 _
  · intro j hj hf hh hmin
    have h := proxy_loop_stop env j 0 max_retry ("❌ 不可用", "❌ 不可用") hj
      (by simpa using hf) (by simpa using hh)
      (fun k hk hfk => by simpa using hmin k hk (by simpa using hfk))
    simpa [proxy_check_domain] using h
  · intro env2 hfe hpr
    simp [proxy_check_domain, proxy_loop_congr env env2 hfe hpr]

/-- Witness for C6: with a fetch-less first iteration and a healthy second
iteration, the loop returns the second iteration's probes after exactly two
fetch attempts (the skipped iteration consumed a slot). -/
theorem C6_proxy_retry_loop_witness :
    proxy_check_domain
        ⟨fun i => i == 1,
         fun i => if i == 1 then "✅ 正常(200)" else "❌ 不可用(other)",
         fun _ => "❌ 不可用(other)"⟩ true 3
      = (("✅ 正常(200)", "❌ 不可用(other)"), 2) :=
  (C6_proxy_retry_loop
      ⟨fun i => i == 1,
       fun i => if i == 1 then "✅ 正常(200)" else "❌ 不可用(other)",
       fun _ => "❌ 不可用(other)"⟩ 3).2.1 1
    (by decide) (by decide) (by decide)
    (fun k hk hfk => by
      have hk0 : k = 0 := by omega
      subst hk0
      exact absurd hfk (by decide))

/-- C9: when the proxy source yields nothing on every attempt, no proxy
probe is issued and both proxy statuses keep their initial bare unavailable
value after all `max_retry` slots are consumed; consequently a domain whose
direct-HTTPS probe is healthy is classified as exit-path discrepancy even
though it was never probed through a proxy. -/
theorem C9_fetchless_discrepancy (env : ProxyEnv) (max_retry : Nat)
    (hall : ∀ k, k < max_retry → env.fetch k = false) :
    proxy_check_domain env true max_retry = (("❌ 不可用", "❌ 不可用"), max_retry)
  ∧ (∀ d : String, pyStartswith d "✅" = true →
      final_judgement true d (proxy_check_domain env true max_retry).1.1
        (proxy_check_domain env true max_retry).1.2
        = "⚠️ 国内可访问，但存在出口差异") := by
  have h1 : proxy_check_domain env true max_retry
      = (("❌ 不可用", "❌ 不可用"), max_retry) := by
    simpa [proxy_check_domain] using
      proxy_loop_all_skip env max_retry 0 ("❌ 不可用", "❌ 不可用")
        (fun k hk => by simpa using hall k hk)
  refine ⟨h1, fun d hd => ?_⟩
  rw [h1]
  simp [final_judgement, hd]
  decide

/-- Witness for C9: two fetch-less attempts leave both proxy statuses bare
unavailable, and a healthy direct-HTTPS then classifies as discrepancy. -/
theorem C9_fetchless_discrepancy_witness :
    proxy_check_domain ⟨fun _ => false, fun _ => "", fun _ => ""⟩ true 2
      = (("❌ 不可用", "❌ 不可用"), 2) ∧
    final_judgement true "✅ 正常(200)"
        (proxy_check_domain ⟨fun _ => false, fun _ => "", fun _ => ""⟩ true 2).1.1
        (proxy_check_domain ⟨fun _ => false, fun _ => "", fun _ => ""⟩ true 2).1.2
      = "⚠️ 国内可访问，但存在出口差异" :=
  ⟨(C9_fetchless_discrepancy ⟨fun _ => false, fun _ => "", fun _ => ""⟩ 2
      (fun k hk => rfl)).1,
   (C9_fetchless_discrepancy ⟨fun _ => false, fun _ => "", fun _ => ""⟩ 2
      (fun k hk => rfl)).2 "✅ 正常(200)" (by decide)⟩

/-- Sanitization is the identity on names made only of safe characters. -/
theorem safe_name_of_all_safe (n : String) (h : n.data.all safe_char = true) :
    safe_name n = n := by
  unfold safe_name
  cases n with
  | mk l =>
      simp only [List.all_eq_true] at h
      refine congrArg String.mk ?_
      induction l with
      | nil => rfl
      | cons c cs ih =>
          have hc := h c (List.mem_cons_self c cs)
          have hcs := fun x hx => h x (List.mem_cons_of_mem c hx)
          simp [hc, ih hcs]

/-- Appending a fixed suffix to strings is injective. -/
theorem string_append_cancel {a b : String} (s : String) (h : a ++ s = b ++ s) :
    a = b := by
  have hd : a.data ++ s.data = b.data ++ s.data := by
    rw [← String.data_append, ← String.data_append, h]
  have he := List.append_cancel_right hd
  cases a; cases b
  exact congrArg String.mk he

/-- C8 counterexample: the names `a b` and `a_b` are distinct, yet their
sanitized storage keys coincide, so distinct target names do not always
yield distinct keys. -/
theorem C8_distinct_names_counterexample :
    ("a b" : String) ≠ "a_b" ∧ safe_name "a b" = safe_name "a_b" := by
  constructor
  · decide
  · decide

/-- C8 (amended): for targets whose names consist only of safe characters
(alphanumerics, `.`, `-`, `_`) — on which sanitization is the identity —
distinct names yield distinct sanitized storage keys, and hence distinct
failure-count and last-alert file names, so their persisted records never
alias. -/
theorem C8_safe_names_distinct_keys (n1 n2 : String)
    (h1 : n1.data.all safe_char = true) (h2 : n2.data.all safe_char = true)
    (hne : n1 ≠ n2) :
    safe_name n1 ≠ safe_name n2
  ∧ safe_name n1 ++ ".fail" ≠ safe_name n2 ++ ".fail"
  ∧ safe_name n1 ++ ".last_alert" ≠ safe_name n2 ++ ".last_alert" := by
  have e1 := safe_name_of_all_safe n1 h1
  have e2 := safe_name_of_all_safe n2 h2
  rw [e1, e2]
  exact ⟨hne, fun hcon => hne (string_append_cancel ".fail" hcon),
    fun hcon => hne (string_append_cancel ".last_alert" hcon)⟩

/-- Witness for the amended C8 at two concrete safe target names. -/
theorem C8_safe_names_distinct_keys_witness :
    ("edge-1.example".data.all safe_char = true) ∧
    ("edge-2.example".data.all safe_char = true) ∧
    safe_name "edge-1.example" ≠ safe_name "edge-2.example" :=
  ⟨by decide, by decide,
   (C8_safe_names_distinct_keys "edge-1.example" "edge-2.example"
      (by decide) (by decide) (by decide)).1⟩

end Opsctl
